import Mathlib

set_option maxRecDepth 4000

/-!
Shallow embedding of `bulk_mailer.py` (cold-email automation script).

Modelling conventions:
* Python `str` is Lean `String`; `str.strip()` is `pyStrip` and
  `str.lower()` is `pyLower` (ASCII whitespace/letter model of Python's
  Unicode-aware versions).  String helpers are implemented structurally
  over the character list so that every definition evaluates inside the
  kernel.
* A spreadsheet cell is `Option String`: `none` models a missing (NaN)
  cell, `some s` a cell whose `str()` rendering is `s`.  Python
  `str(nan)` is the literal `"nan"`, captured by `cellStr`.
* Network and clock behaviour (HTTP responses, the OpenAI call and its
  tag parsing, `datetime.utcnow`, SMTP outcomes) is external and is
  modelled by an `Oracles` record; everything deterministic in the
  script is translated directly.
-/

/-- Python `str.lower()` on one character (ASCII model, as in the script's
`.lower()` calls; identical to Lean core `Char.toLower`). -/
def pyLowerChar (c : Char) : Char :=
  if 65 ≤ c.toNat ∧ c.toNat ≤ 90 then Char.ofNat (c.toNat + 32) else c

/-- Python `str.lower()` (ASCII model). -/
def pyLower (s : String) : String :=
  String.mk (s.data.map pyLowerChar)

/-- Python `str.strip()` with no arguments: remove leading and trailing
whitespace (ASCII model, the predicate of `String.trim`). -/
def pyStrip (s : String) : String :=
  String.mk (((s.data.dropWhile Char.isWhitespace).reverse.dropWhile Char.isWhitespace).reverse)

/-- Character class of the ASCII upper-case letters `[A-Z]`. -/
def isUpperAZ (c : Char) : Bool :=
  'A' ≤ c && c ≤ 'Z'

/-- Character class of the ASCII lower-case letters `[a-z]`. -/
def isLowerAZ (c : Char) : Bool :=
  'a' ≤ c && c ≤ 'z'

/-- Character class `[A-Za-z]` used by the regexes in the script. -/
def isAsciiLetter (c : Char) : Bool :=
  isUpperAZ c || isLowerAZ c

/-- Regex word character `\w` (ASCII model `[A-Za-z0-9_]`), used for the
`\b` word-boundary assertions. -/
def isWordChar (c : Char) : Bool :=
  isAsciiLetter c || ('0' ≤ c && c ≤ '9') || c == '_'

/-- `re.sub(r"\s+", " ", s)` on a character list: every maximal run of
whitespace becomes a single space.  The flag records whether we are
inside a whitespace run whose replacement space was already emitted. -/
def collapseWSAux : List Char → Bool → List Char
  | [], _ => []
  | c :: cs, inRun =>
    if c.isWhitespace then
      (if inRun then [] else [' ']) ++ collapseWSAux cs true
    else
      c :: collapseWSAux cs false

/-- `re.sub(r"\s+", " ", s)` (line 165 of the script). -/
def collapseWS (s : String) : String :=
  String.mk (collapseWSAux s.data false)

/-! ### `extract_helper_phrase` (lines 158-199)

The two regex scans are hand-compiled from the patterns in the source:
`r"\b(in|on|around|for|within)\s+([A-Za-z][A-Za-z\- ]{3,50})"` and
`r"\b([A-Z][a-z]+(?:\s+[A-Z][a-z]+){0,3})\b"`.  The alternatives of the
first pattern start with pairwise distinct letters, and neither the
greedy `\s+` nor the greedy counted classes can backtrack usefully
(whitespace never matches a letter class, and shrinking a `[a-z]+` run
never creates a word boundary), so both patterns match
deterministically; only the trailing `\b` of the second pattern can
force dropping the last greedy repetition, which then always succeeds
because the dropped repetition begins with whitespace. -/

/-- Character class `[A-Za-z\- ]` of the first pattern's group 2. -/
def isG2Char (c : Char) : Bool :=
  isAsciiLetter c || c == '-' || c == ' '

/-- Try one alternative `p` of `(in|on|around|for|within)` at the head of
`cs`, then `\s+` and the greedy group `[A-Za-z][A-Za-z\- ]{3,50}`.
Returns the group-2 characters and the remaining input. -/
def matchPrepOne (p : List Char) (cs : List Char) : Option (List Char × List Char) :=
  if p.isPrefixOf cs then
    let rest := cs.drop p.length
    let ws := rest.takeWhile Char.isWhitespace
    if ws.isEmpty then none
    else
      match rest.drop ws.length with
      | [] => none
      | c :: cs2 =>
        if isAsciiLetter c then
          let cont := (cs2.takeWhile isG2Char).take 50
          if cont.length < 3 then none
          else some (c :: cont, cs2.drop cont.length)
        else none
  else none

/-- Try the five alternatives in the pattern's order. -/
def matchPrepAlts : List (List Char) → List Char → Option (List Char × List Char)
  | [], _ => none
  | p :: ps, cs =>
    match matchPrepOne p cs with
    | some r => some r
    | none => matchPrepAlts ps cs

/-- Attempt the whole first pattern at the current position; `prevWord`
says whether the preceding character is a word character (for `\b`). -/
def matchPrepAt (prevWord : Bool) (cs : List Char) : Option (List Char × List Char) :=
  if prevWord then none
  else matchPrepAlts ["in".data, "on".data, "around".data, "for".data, "within".data] cs

/-- `re.finditer` scan for the first pattern, collecting every group-2
text left to right without overlap.  Fuel is the remaining length. -/
def prepScan : Nat → Bool → List Char → List String
  | 0, _, _ => []
  | _ + 1, _, [] => []
  | fuel + 1, prevWord, c :: rest =>
    match matchPrepAt prevWord (c :: rest) with
    | some (g2, after) => String.mk g2 :: prepScan fuel (isWordChar (g2.getLastD ' ')) after
    | none => prepScan fuel (isWordChar c) rest

/-- One `[A-Z][a-z]+` word of the second pattern. -/
def takeCapsWord (cs : List Char) : Option (List Char × List Char) :=
  match cs with
  | [] => none
  | c :: rest =>
    if isUpperAZ c then
      let lows := rest.takeWhile isLowerAZ
      if lows.isEmpty then none
      else some (c :: lows, rest.drop lows.length)
    else none

/-- Greedily take up to `n` repetitions of `\s+[A-Z][a-z]+`, returning
the matched segments (each including its leading whitespace). -/
def takeCapsReps : Nat → List Char → List (List Char) × List Char
  | 0, cs => ([], cs)
  | n + 1, cs =>
    let ws := cs.takeWhile Char.isWhitespace
    if ws.isEmpty then ([], cs)
    else
      match takeCapsWord (cs.drop ws.length) with
      | none => ([], cs)
      | some (w, rest) =>
        let (more, rest2) := takeCapsReps n rest
        ((ws ++ w) :: more, rest2)

/-- Attempt the whole second pattern at the current position (the
trailing `\b` may force dropping the last greedy repetition). -/
def matchCapsAt (prevWord : Bool) (cs : List Char) : Option (List Char × List Char) :=
  if prevWord then none
  else
    match takeCapsWord cs with
    | none => none
    | some (w1, rest1) =>
      let (reps, rest2) := takeCapsReps 3 rest1
      if rest2.headD ' ' |> isWordChar then
        -- trailing `\b` fails: drop the last repetition (its leading
        -- whitespace restores the boundary), or fail if there is none
        match reps.getLast? with
        | none => none
        | some lastRep => some (w1 ++ (reps.dropLast).flatten, lastRep ++ rest2)
      else
        some (w1 ++ reps.flatten, rest2)

/-- `re.findall` scan for the second pattern (group 1 of each match). -/
def capsScan : Nat → Bool → List Char → List String
  | 0, _, _ => []
  | _ + 1, _, [] => []
  | fuel + 1, prevWord, c :: rest =>
    match matchCapsAt prevWord (c :: rest) with
    | some (chunk, after) => String.mk chunk :: capsScan fuel (isWordChar (chunk.getLastD ' ')) after
    | none => capsScan fuel (isWordChar c) rest

/-- Post-processing of a group-2 text (lines 171-172):
`.strip().lower()` then `re.sub(r"[^a-z\- ]+", "", ...)`. -/
def prepPhraseOf (g2 : String) : String :=
  String.mk ((pyLower (pyStrip g2)).data.filter (fun c => isLowerAZ c || c == '-' || c == ' '))

/-- Candidates from the preposition pattern, filtered to length 3-40 at
collection time (lines 170-174).  The scan runs over the
whitespace-collapsed text `txt`. -/
def prepCandidates (text : String) : List String :=
  let txt := collapseWS text
  (prepScan txt.data.length false txt.data).filterMap fun g2 =>
    let phrase := prepPhraseOf g2
    if 3 ≤ phrase.length ∧ phrase.length ≤ 40 then some phrase else none

/-- Candidates from the capitalised-chunk pattern, lower-cased and
unfiltered (lines 177-179).  The scan runs over the original `text`. -/
def capsCandidates (text : String) : List String :=
  (capsScan text.data.length false text.data).map pyLower

/-- The fixed keyword fallback list (lines 182-186). -/
def keywordList : List String :=
  ["sustainable finance", "inclusive finance", "credit analytics", "portfolio risk",
   "quant research", "deal sourcing", "market intelligence", "growth analytics",
   "data engineering", "automation", "fund operations", "fintech infrastructure"]

/-- The assembled candidate list (lines 167-187). -/
def candidatesOf (text : String) : List String :=
  prepCandidates text ++ capsCandidates text ++ keywordList

/-- Cleaning pass (lines 189-193): strip, collapse whitespace, then keep
only candidates of length 3-40. -/
def cleanedCandidates (text : String) : List String :=
  ((candidatesOf text).map (fun c => collapseWS (pyStrip c))).filter
    (fun c => 3 ≤ c.length && c.length ≤ 40)

/-- Splitting a character list at whitespace runs, dropping empties;
`acc` is the current word, reversed. -/
def pyWordsAux : List Char → List Char → List String
  | [], acc => if acc.isEmpty then [] else [String.mk acc.reverse]
  | c :: cs, acc =>
    if c.isWhitespace then
      (if acc.isEmpty then [] else [String.mk acc.reverse]) ++ pyWordsAux cs []
    else pyWordsAux cs (c :: acc)

/-- Python `s.split()` with no arguments: whitespace-separated words. -/
def pyWords (s : String) : List String :=
  pyWordsAux s.data []

/-- Primary sort key `abs(len(s.split()) - 3)` (line 196). -/
def candKey1 (s : String) : Nat :=
  (((pyWords s).length : Int) - 3).natAbs

/-- The sort comparison of line 196: ascending in the lexicographic key
`(abs(len(s.split()) - 3), len(s))`. -/
def candLE (a b : String) : Prop :=
  candKey1 a < candKey1 b ∨ (candKey1 a = candKey1 b ∧ a.length ≤ b.length)

instance : DecidableRel candLE := fun a b => by
  unfold candLE; infer_instance

/-- Lines 195-199: sort the cleaned candidates and return the best, or
the fixed default when no candidate survived.  Python's `list.sort` is a
stable ascending sort by the key; `List.insertionSort` is also stable,
and all stable sorts under the same total preorder agree, so the model
is extensionally the code's sort. -/
def pickBest (cleaned : List String) : String :=
  match cleaned.insertionSort candLE with
  | [] => "analytics support"
  | best :: _ => best

/-- `extract_helper_phrase` (lines 158-199). -/
def extract_helper_phrase (text : String) : String :=
  if text = "" then "analytics support"
  else pickBest (cleanedCandidates text)

/-! ### Constant branding content (lines 68-86) -/

def YOUR_DEGREE : String := "MSci Artificial Intelligence, King’s College London"

def YOUR_PHONE : String := "07525483773"

def YOUR_EMAIL : String := "hissanomar786@hotmail.com"

def YOUR_GITHUB : String := "https://github.com/Hissan7"

def YOUR_LINKEDIN : String := "https://www.linkedin.com/in/hissanomar"

def RESUME_PARAGRAPH : String :=
  "I’m Hissan Omar, currently pursuing an MSci in Artificial Intelligence at King’s College London. My background spans AI, finance, and data analytics — from developing an Option Value Predictor using Monte Carlo simulations and the Black-Scholes model to building a Sentiment-Based Alpha Generator that links social media trends to stock returns."

def LONDON_CLOSING : String :=
  "If there’s any way I could take a bit off your plate — whether through research, data processing, or analytics support — I’d love to contribute and learn from your team in London.I\x27m open to a short chat, discussing possible tasks within your firm. I hope to hearing back from you soon !"

/-! ### Email composition (lines 275-324) -/

/-- `fallback_opener` (lines 275-286). -/
def fallback_opener (company blurb your_role : String) : String :=
  if blurb ≠ "" then
    "I’ve been looking into " ++ company ++ " and I really like your focus on " ++
      extract_helper_phrase blurb ++
      ". Given my background in AI-driven financial modelling and data analytics, I’d love to support work in this area as a " ++
      your_role ++ "."
  else
    "I’ve been exploring the work that " ++ company ++
      " does and I’m excited about your approach to building in finance. With my background in AI and quantitative analysis, I’d love to support your team as a " ++
      your_role ++ "."

/-- `subject_line` (lines 289-292). -/
def subject_line (company helper_phrase : String) : String :=
  "Msci AI student willing to help " ++ pyStrip company ++ " with " ++ pyLower (pyStrip helper_phrase)

/-- `opener[0].lower() + opener[1:]` (line 302). -/
def lowerFirst (s : String) : String :=
  match s.data with
  | [] => s
  | c :: cs => String.mk (pyLowerChar c :: cs)

/-- `build_email_body` (lines 295-324). -/
def build_email_body (company greeting opener website your_name : String) : String :=
  let greeting2 :=
    if greeting = "" then
      "Hello " ++ company ++ " team. I hope this message finds you in good health,"
    else greeting
  let opener_block :=
    if opener ≠ "" then "I\x27m fascinated by how " ++ lowerFirst opener
    else "I\x27m fascinated by how your work fits into the broader finance and technology landscape."
  greeting2 ++ "\n\n" ++ opener_block ++ "\n\n" ++ RESUME_PARAGRAPH ++ "\n\n" ++
    LONDON_CLOSING ++ "\n\nBest,\n" ++ your_name ++ "\n" ++ YOUR_DEGREE ++
    "\nPhone: " ++ YOUR_PHONE ++ "\nEmail: " ++ YOUR_EMAIL ++ "\nGitHub: " ++ YOUR_GITHUB ++
    "\nLinkedIn: " ++ YOUR_LINKEDIN ++ "\nWebsite noted: " ++
    (if website ≠ "" then website else "-") ++ "\n"

/-! ### Blurb fetching (lines 129-155)

The HTTP requests, status checks and HTML parsing are external
(network-dependent); the deterministic prelude -- the empty-URL early
return, scheme normalisation and candidate-URL construction of lines
131-135 -- is translated, and the resulting blurb text is an oracle of
the normalised URL. -/

/-- Scheme normalisation (lines 133-134). -/
def urlWithScheme (url : String) : String :=
  if "http://".data.isPrefixOf url.data || "https://".data.isPrefixOf url.data then url
  else "http://" ++ url

/-- `urllib.parse.urljoin(base, rel)` for an absolute-path `rel` on a
base that carries a scheme: the path is replaced, keeping scheme and
host. -/
def urljoinPath (base rel : String) : String :=
  let (scheme, hostPath) :=
    if "https://".data.isPrefixOf base.data then ("https://", base.data.drop 8)
    else if "http://".data.isPrefixOf base.data then ("http://", base.data.drop 7)
    else ("", base.data)
  scheme ++ String.mk (hostPath.takeWhile (fun c => c ≠ '/')) ++ rel

/-- The candidate URLs built on line 135, empty when the guard of lines
131-132 returns early. -/
def fetchCandidateUrls (url : String) : List String :=
  if url = "" then []
  else
    let u := urlWithScheme url
    [u, urljoinPath u "/about", urljoinPath u "/about-us", urljoinPath u "/company"]

/-! ### The run loop (lines 381-519) -/

/-- A GPT personalisation outcome: the opener (kept optional because the
loop's safety guard of line 457 also checks for `None`) and the helper
phrase. -/
structure GptResult where
  opener : Option String
  helper : String

/-- External, non-deterministic collaborators of the script.  `fetch`
gives the blurb `fetch_site_blurb` extracts for a scheme-normalised URL;
`gpt` gives the result of the OpenAI call together with its tag parsing
and error fallbacks (lines 217-271); `now` is the per-row UTC timestamp
of line 470; `sendErr` is `none` when SMTP delivery succeeds and the
exception text otherwise (lines 479-494). -/
structure Oracles where
  fetch : String → String
  gpt : String → String → String → String → GptResult
  now : Nat → String
  sendErr : String → Option String

/-- Command-line arguments and environment configuration relevant to the
loop: `--from_name`, `--role`, `--dry_run`, `--outbox`, `--max`, and
whether `OPENAI_API_KEY` is configured with a usable client. -/
structure Config where
  fromName : String
  role : String
  dryRun : Bool
  outbox : String
  maxPerRun : Nat
  hasApiKey : Bool

/-- `fetch_site_blurb` (lines 129-155): the returned blurb (an oracle of
the scheme-normalised URL) and the candidate URLs it would request. -/
def fetch_site_blurb (O : Oracles) (url : String) : String × List String :=
  if url = "" then ("", [])
  else (O.fetch (urlWithScheme url), fetchCandidateUrls url)

/-- `gpt_company_personalization` (lines 202-271).  Without a configured
API key (or importable client) the local heuristic path of lines 211-215
runs; with one, the call, its strict-format parsing and all its error
fallbacks are network-dependent and modelled by the `gpt` oracle. -/
def gpt_company_personalization (O : Oracles) (cfg : Config)
    (company website blurb : String) : GptResult :=
  if cfg.hasApiKey then O.gpt company website blurb cfg.role
  else
    let opener := fallback_opener company blurb cfg.role
    let helper := extract_helper_phrase (if blurb ≠ "" then blurb else opener)
    { opener := some opener, helper := helper }

/-- A spreadsheet cell: `none` is a missing (NaN) value. -/
abbrev Cell := Option String

/-- Python `str()` of a cell value: NaN renders as the literal `"nan"`. -/
def cellStr : Cell → String
  | none => "nan"
  | some s => s

/-- One lead row after `normalize_columns`.  `firstLine` and `status`
are `none` when the whole column is absent from the sheet (the code
guards on `"First Line" in df.columns` and `"Status" in df.columns`). -/
structure Row where
  company : Cell
  website : Cell
  email : Cell
  firstLine : Option Cell
  status : Option Cell

/-- The per-row scalar values computed on lines 421-436. -/
structure RowVals where
  company : String
  email : String
  website : String
  openerFromSheet : String
  status : String

/-- Lines 421-436: stringify and strip the cells; the NaN-to-empty guard
(`pd.isna`) is applied only to the First Line column. -/
def rowVals (row : Row) : RowVals where
  company := pyStrip (cellStr row.company)
  email := pyStrip (cellStr row.email)
  website := pyStrip (cellStr row.website)
  openerFromSheet :=
    match row.firstLine with
    | none => ""
    | some none => ""
    | some (some s) => pyStrip s
  status :=
    match row.status with
    | none => ""
    | some c => pyStrip (cellStr c)

/-- Character class `[A-Za-z0-9_.-]` of the filename sanitiser. -/
def isSafeFilenameChar (c : Char) : Bool :=
  isAsciiLetter c || ('0' ≤ c && c ≤ '9') || c == '_' || c == '.' || c == '-'

/-- `re.sub(r"[^A-Za-z0-9_.-]+", "_", s)` (line 473): every maximal run
of characters outside the class becomes one underscore. -/
def sanitizeAux : List Char → Bool → List Char
  | [], _ => []
  | c :: cs, inRun =>
    if isSafeFilenameChar c then c :: sanitizeAux cs false
    else (if inRun then [] else ['_']) ++ sanitizeAux cs true

/-- The sanitised company used in the preview filename (line 473),
before the 60-character truncation. -/
def sanitizeCompany (s : String) : String :=
  String.mk (sanitizeAux s.data false)

/-- Lines 443-453: blurb and attempted candidate URLs for a row.  When a
sheet opener is present, `blurb` keeps its initial `""` and nothing is
fetched. -/
def rowBlurbFetch (O : Oracles) (row : Row) : String × List String :=
  let v := rowVals row
  if v.openerFromSheet ≠ "" then ("", [])
  else fetch_site_blurb O v.website

/-- Lines 445-454: either the sheet-provided opener with a phrase
extracted from it, or the scrape-and-personalise result. -/
def rowPersonalization (O : Oracles) (cfg : Config) (row : Row) : GptResult :=
  let v := rowVals row
  if v.openerFromSheet ≠ "" then
    { opener := some v.openerFromSheet, helper := extract_helper_phrase v.openerFromSheet }
  else
    gpt_company_personalization O cfg v.company v.website (rowBlurbFetch O row).1

/-- Lines 456-459, the hard safety guard: a `None` opener, or one whose
string form lower-cases to `"nan"`, is replaced by the heuristic
fallback. -/
def rowOpener (O : Oracles) (cfg : Config) (row : Row) : String :=
  let v := rowVals row
  match (rowPersonalization O cfg row).opener with
  | none => fallback_opener v.company (rowBlurbFetch O row).1 cfg.role
  | some s =>
    if pyLower s = "nan" then fallback_opener v.company (rowBlurbFetch O row).1 cfg.role
    else s

/-- The helper phrase used for the subject of a row. -/
def rowHelper (O : Oracles) (cfg : Config) (row : Row) : String :=
  (rowPersonalization O cfg row).helper

/-- `subj` of line 461. -/
def rowSubject (O : Oracles) (cfg : Config) (row : Row) : String :=
  subject_line (rowVals row).company (rowHelper O cfg row)

/-- `body` of lines 462-468 (greeting is always forced to `""` on line
424, so the default greeting applies). -/
def rowBody (O : Oracles) (cfg : Config) (row : Row) : String :=
  build_email_body (rowVals row).company "" (rowOpener O cfg row) (rowVals row).website cfg.fromName

/-- Preview filename of lines 473-474:
`outbox / f"{safe_company}__{email}.txt"`. -/
def previewFilename (cfg : Config) (company email : String) : String :=
  cfg.outbox ++ "/" ++ String.mk ((sanitizeCompany company).data.take 60) ++ "__" ++ email ++ ".txt"

/-- Preview file content of line 476. -/
def previewContent (email subj body : String) : String :=
  "TO: " ++ email ++ "\nSUBJECT: " ++ subj ++ "\n\n" ++ body

/-- One record of the send log (lines 496-505). -/
structure SendRecord where
  timestamp : String
  company : String
  email : String
  website : String
  greeting : String
  first_line : String
  subject : String
  result : String
deriving DecidableEq, Repr

/-- Observable state of one run: the processed counter, the in-memory
log, the preview files written, the SMTP messages attempted
(recipient, subject, body), the URLs handed to the HTTP client, and the
invocations of `gpt_company_personalization` (line 454). -/
structure RunState where
  processed : Nat
  log : List SendRecord
  previews : List (String × String)
  sends : List (String × String × String)
  fetchAttempts : List String
  gptCalls : List (String × String × String × String)
deriving DecidableEq, Repr

/-- State before the loop (lines 414-415). -/
def initState : RunState where
  processed := 0
  log := []
  previews := []
  sends := []
  fetchAttempts := []
  gptCalls := []

/-- The body of the `for` loop (lines 421-506) for one row that has
already passed the cap check. -/
def processRow (O : Oracles) (cfg : Config) (st : RunState) (row : Row) : RunState :=
  let v := rowVals row
  if v.company = "" || v.email = "" then st
  else if pyLower v.status ∈ (["sent", "done", "bounced"] : List String) then st
  else
    let (blurb, fetched) := rowBlurbFetch O row
    let opener := rowOpener O cfg row
    let subj := rowSubject O cfg row
    let body := rowBody O cfg row
    let ts := O.now st.processed
    let gcs := if v.openerFromSheet = "" then [(v.company, v.website, blurb, cfg.role)] else []
    let st1 := { st with
      fetchAttempts := st.fetchAttempts ++ fetched
      gptCalls := st.gptCalls ++ gcs }
    if cfg.dryRun then
      { st1 with
        previews := st1.previews ++
          [(previewFilename cfg v.company v.email, previewContent v.email subj body)]
        log := st1.log ++ [⟨ts, v.company, v.email, v.website, "", opener, subj, "PREVIEWED"⟩]
        processed := st1.processed + 1 }
    else
      let result :=
        match O.sendErr v.email with
        | none => "SENT"
        | some e => "ERROR: " ++ e
      { st1 with
        sends := st1.sends ++ [(v.email, subj, body)]
        log := st1.log ++ [⟨ts, v.company, v.email, v.website, "", opener, subj, result⟩]
        processed := st1.processed + 1 }

/-- The `for i, row in df.iterrows()` loop with its cap-triggered
`break` (lines 417-419). -/
def runRows (O : Oracles) (cfg : Config) : RunState → List Row → RunState
  | st, [] => st
  | st, row :: rest =>
    if cfg.maxPerRun ≤ st.processed then st
    else runRows O cfg (processRow O cfg st row) rest

/-- The fixed CSV column set of line 508. -/
def logFieldnames : List String :=
  ["timestamp", "company", "email", "website", "greeting", "first_line", "subject", "result"]

/-- A log record as the CSV row the `DictWriter` emits, in the
`fieldnames` order. -/
def recordToRow (r : SendRecord) : List String :=
  [r.timestamp, r.company, r.email, r.website, r.greeting, r.first_line, r.subject, r.result]

/-- End-of-run log write (lines 508-514): the file is opened in append
mode, and the header row is written only when the file did not yet
exist.  `existing` is the file's previous rows (`none` when the file is
new); the result is the file content after the run. -/
def appendLog (existing : Option (List (List String))) (recs : List SendRecord) :
    List (List String) :=
  (match existing with
   | none => [logFieldnames]
   | some rows => rows) ++ recs.map recordToRow

/-! ### Helper lemmas -/

theorem pyLowerChar_toNat (c : Char) (h : 65 ≤ c.toNat ∧ c.toNat ≤ 90) :
    (pyLowerChar c).toNat = c.toNat + 32 := by
  unfold pyLowerChar
  rw [if_pos h, Char.ofNat, dif_pos (Or.inl (by omega))]
  simp [Char.ofNatAux, Char.toNat, UInt32.toNat]

theorem pyLowerChar_idem (c : Char) : pyLowerChar (pyLowerChar c) = pyLowerChar c := by
  by_cases h : 65 ≤ c.toNat ∧ c.toNat ≤ 90
  · have h1 := pyLowerChar_toNat c h
    rw [show pyLowerChar (pyLowerChar c) =
        if 65 ≤ (pyLowerChar c).toNat ∧ (pyLowerChar c).toNat ≤ 90 then
          Char.ofNat ((pyLowerChar c).toNat + 32)
        else pyLowerChar c from rfl]
    rw [if_neg (by omega)]
  · rw [show pyLowerChar c = c from if_neg h, show pyLowerChar c = c from if_neg h]

theorem pyLower_idem (s : String) : pyLower (pyLower s) = pyLower s := by
  unfold pyLower
  simp only [List.map_map]
  congr 1
  exact List.map_congr_left fun c _ => pyLowerChar_idem c

instance : IsTotal String candLE :=
  ⟨fun a b => by unfold candLE; omega⟩

instance : IsTrans String candLE :=
  ⟨fun a b c h1 h2 => by unfold candLE at h1 h2 ⊢; omega⟩

theorem candLE_refl (a : String) : candLE a a :=
  Or.inr ⟨rfl, le_refl _⟩

theorem pickBest_mem {l : List String} (h : l ≠ []) : pickBest l ∈ l := by
  unfold pickBest
  cases hs : l.insertionSort candLE with
  | nil =>
    have hp := List.perm_insertionSort candLE l
    rw [hs] at hp
    exact absurd hp.symm.eq_nil h
  | cons b t =>
    have hb : b ∈ l.insertionSort candLE := by rw [hs]; exact List.mem_cons_self b t
    exact (List.mem_insertionSort candLE).1 hb

theorem pickBest_min {l : List String} (h : l ≠ []) : ∀ c ∈ l, candLE (pickBest l) c := by
  intro c hc
  unfold pickBest
  cases hs : l.insertionSort candLE with
  | nil =>
    have hp := List.perm_insertionSort candLE l
    rw [hs] at hp
    exact absurd hp.symm.eq_nil h
  | cons b t =>
    have hsort := List.sorted_insertionSort candLE l
    rw [hs] at hsort
    have hc2 : c ∈ b :: t := by rw [← hs]; exact (List.mem_insertionSort candLE).2 hc
    rcases List.mem_cons.1 hc2 with rfl | hct
    · exact candLE_refl c
    · exact List.rel_of_sorted_cons hsort c hct

theorem automation_mem_cleaned (text : String) : "automation" ∈ cleanedCandidates text := by
  have h1 : "automation" ∈ candidatesOf text := by
    unfold candidatesOf
    exact List.mem_append.2 (Or.inr (show "automation" ∈ keywordList by decide))
  have h2 : "automation" ∈ (candidatesOf text).map (fun c => collapseWS (pyStrip c)) :=
    List.mem_map.2 ⟨"automation", h1, by decide⟩
  unfold cleanedCandidates
  exact List.mem_filter.2 ⟨h2, by decide⟩

theorem cleaned_ne_nil (text : String) : cleanedCandidates text ≠ [] :=
  List.ne_nil_of_mem (automation_mem_cleaned text)

theorem fallback_opener_ne_nan (company blurb role : String) :
    fallback_opener company blurb role ≠ "nan" := by
  unfold fallback_opener
  have hnan : ("nan" : String).length = 3 := rfl
  split
  · intro h
    have hl := congrArg String.length h
    simp only [String.length_append, hnan] at hl
    have : ("I’ve been looking into " : String).length = 23 := rfl
    omega
  · intro h
    have hl := congrArg String.length h
    simp only [String.length_append, hnan] at hl
    have : ("I’ve been exploring the work that " : String).length = 34 := rfl
    omega

theorem rowOpener_ne_nan (O : Oracles) (cfg : Config) (row : Row) :
    rowOpener O cfg row ≠ "nan" := by
  unfold rowOpener
  cases hp : (rowPersonalization O cfg row).opener with
  | none => exact fallback_opener_ne_nan _ _ _
  | some s =>
    dsimp only
    split
    · exact fallback_opener_ne_nan _ _ _
    · intro h
      rename_i hne
      exact hne (by rw [h]; rfl)

theorem processRow_log_all (O : Oracles) (cfg : Config) (st : RunState) (row : Row)
    (h : st.log.all (fun r => r.first_line != "nan") = true) :
    (processRow O cfg st row).log.all (fun r => r.first_line != "nan") = true := by
  unfold processRow
  dsimp only
  split
  · exact h
  · split
    · exact h
    · split
      all_goals
        simp only [List.all_append, h, List.all_cons, List.all_nil, Bool.and_true, Bool.true_and]
        simp only [bne_iff_ne, ne_eq, decide_eq_true_eq]
        exact rowOpener_ne_nan O cfg row

theorem runRows_log_all (O : Oracles) (cfg : Config) :
    ∀ (rows : List Row) (st : RunState),
      st.log.all (fun r => r.first_line != "nan") = true →
      (runRows O cfg st rows).log.all (fun r => r.first_line != "nan") = true
  | [], _, h => h
  | row :: rest, st, h => by
    unfold runRows
    split
    · exact h
    · exact runRows_log_all O cfg rest _ (processRow_log_all O cfg st row h)

theorem append_tail_website (A : String) :
    ∃ p, A ++ "\nWebsite noted: " ++ "nan" ++ "\n" = p ++ "Website noted: nan\n" := by
  refine ⟨A ++ "\n", ?_⟩
  rw [String.append_assoc (A ++ "\nWebsite noted: ") "nan" "\n",
    String.append_assoc A "\nWebsite noted: " ("nan" ++ "\n"),
    show ("\nWebsite noted: " : String) ++ ("nan" ++ "\n") = "\n" ++ "Website noted: nan\n" by decide,
    ← String.append_assoc A "\n" "Website noted: nan\n"]

theorem body_tail_nan (company opener name : String) :
    ∃ p, build_email_body company "" opener "nan" name = p ++ "Website noted: nan\n" := by
  unfold build_email_body
  rw [show (if ("nan" : String) ≠ "" then ("nan" : String) else "-") = "nan" by decide]
  exact append_tail_website _

/-! ### Concrete fixtures for witnesses and counterexamples -/

/-- Deterministic oracles for concrete runs: empty blurbs, a GPT result
that is never produced (no API key configured), fixed clock, successful
sends. -/
def oracle0 : Oracles where
  fetch := fun _ => ""
  gpt := fun _ _ _ _ => { opener := none, helper := "" }
  now := fun _ => "2025-01-01T00:00:00Z"
  sendErr := fun _ => none

/-- Oracles whose GPT call answers with the literal opener `"NaN"`. -/
def oracleNanGpt : Oracles :=
  { oracle0 with gpt := fun _ _ _ _ => { opener := some "NaN", helper := "risk" } }

/-- A dry-run configuration with the script's defaults. -/
def cfgDry : Config where
  fromName := "Hissan Omar"
  role := "AI/Software Engineer Intern"
  dryRun := true
  outbox := "outbox_preview"
  maxPerRun := 50
  hasApiKey := false

/-- The dry-run configuration with an OpenAI key configured. -/
def cfgGpt : Config :=
  { cfgDry with hasApiKey := true }

/-- A row whose Company cell is missing (NaN) but whose Email is valid. -/
def rowMissingCompany : Row :=
  { company := none, website := some "", email := some "a@b.com",
    firstLine := some (some "Great work!"), status := some (some "") }

/-- A row whose Company cell holds the empty string. -/
def rowEmptyCompany : Row :=
  { company := some "", website := some "", email := some "x@y.com",
    firstLine := some none, status := some none }

/-- A valid row whose company name contains a dot and a space. -/
def rowDotCompany : Row :=
  { company := some "a.b c", website := some "", email := some "d@e.fr",
    firstLine := some (some "Great work!"), status := some none }

/-- A valid row whose First Line override lower-cases to `"nan"` without
being one of the spellings pandas converts to NaN. -/
def rowNAnOverride : Row :=
  { company := some "Acme", website := some "", email := some "a@b.com",
    firstLine := some (some "nAn"), status := some none }

/-- A valid row with a sheet-provided First Line override. -/
def rowSheetOpener : Row :=
  { company := some "Acme Capital", website := some "acme.com", email := some "a@acme.com",
    firstLine := some (some "Great work!"), status := some none }

/-- A valid row whose Website cell is missing (NaN). -/
def rowNoWebsite : Row :=
  { company := some "Acme", website := none, email := some "a@b.com",
    firstLine := some none, status := some none }

/-! ### Claim theorems -/

/-- C1 (counterexample): a row whose Company cell is missing (NaN) is
not skipped: `str(nan)` is the non-empty `"nan"`, so the row is
processed, logged, previewed, and counted against the cap. -/
theorem C1_counterexample :
    (runRows oracle0 cfgDry initState [rowMissingCompany]).processed = 1 ∧
    (runRows oracle0 cfgDry initState [rowMissingCompany]).log.length = 1 ∧
    (runRows oracle0 cfgDry initState [rowMissingCompany]).previews.length = 1 ∧
    (rowVals rowMissingCompany).company = "nan" := by
  exact ⟨by decide, by decide, by decide, by decide⟩

/-- C1 (amended): a row is skipped -- no log entry, no preview, no send,
no counter increment, no effect at all -- exactly when its stringified
and stripped Company or Email value is empty, or its Status
lower-cases to one of `sent`, `done`, `bounced`; a missing (NaN) Company
or Email cell stringifies to the non-empty `"nan"` and is therefore not
skipped. -/
theorem C1_skip_rules (O : Oracles) (cfg : Config) (st : RunState) (row : Row)
    (h : (rowVals row).company = "" ∨ (rowVals row).email = "" ∨
      pyLower (rowVals row).status ∈ (["sent", "done", "bounced"] : List String)) :
    processRow O cfg st row = st := by
  unfold processRow
  dsimp only
  rcases h with h | h | h
  · simp [h]
  · simp [h]
  · simp [h]

/-- C1 (witness): the skip theorem applied to a row with an
empty-string Company cell. -/
theorem C1_skip_rules_witness :
    ((rowVals rowEmptyCompany).company = "" ∨ (rowVals rowEmptyCompany).email = "" ∨
      pyLower (rowVals rowEmptyCompany).status ∈ (["sent", "done", "bounced"] : List String)) ∧
    processRow oracle0 cfgDry initState rowEmptyCompany = initState :=
  ⟨Or.inl (by decide), C1_skip_rules oracle0 cfgDry initState rowEmptyCompany (Or.inl (by decide))⟩

/-- C2: for every processed row the subject is the fixed template with
the stripped company and the stripped, lower-cased helper phrase
substituted, and the substituted phrase is lower-case (it is a fixed
point of lower-casing). -/
theorem C2_subject_template (O : Oracles) (cfg : Config) (row : Row) :
    rowSubject O cfg row =
      "Msci AI student willing to help " ++ pyStrip (rowVals row).company ++ " with " ++
        pyLower (pyStrip (rowHelper O cfg row)) ∧
    pyLower (pyLower (pyStrip (rowHelper O cfg row))) = pyLower (pyStrip (rowHelper O cfg row)) :=
  ⟨rfl, pyLower_idem _⟩

/-- C3: the opener recorded in the send log (which is also the opener
handed to the body composer) is never the literal `"nan"`; a `None`
opener, or one that lower-cases to `"nan"` -- in particular the literal
`"nan"` itself -- is replaced by the heuristic fallback before
composition. -/
theorem C3_opener_never_nan (O : Oracles) (cfg : Config) (rows : List Row) (row : Row) :
    (runRows O cfg initState rows).log.all (fun rec => rec.first_line != "nan") = true ∧
    rowBody O cfg row =
      build_email_body (rowVals row).company "" (rowOpener O cfg row) (rowVals row).website
        cfg.fromName ∧
    (((rowPersonalization O cfg row).opener = none ∨
        (∃ s, (rowPersonalization O cfg row).opener = some s ∧ pyLower s = "nan")) →
      rowOpener O cfg row =
        fallback_opener (rowVals row).company (rowBlurbFetch O row).1 cfg.role) := by
  refine ⟨runRows_log_all O cfg rows initState rfl, rfl, ?_⟩
  intro h
  unfold rowOpener
  rcases h with hnone | ⟨s, hs, hlow⟩
  · rw [hnone]
  · rw [hs]
    dsimp only
    rw [if_pos hlow]

/-- C3 (witness): with an API key configured and a GPT oracle answering
the opener `"NaN"`, the guard replaces it by the heuristic fallback. -/
theorem C3_opener_never_nan_witness :
    ((rowPersonalization oracleNanGpt cfgGpt rowNoWebsite).opener = none ∨
      (∃ s, (rowPersonalization oracleNanGpt cfgGpt rowNoWebsite).opener = some s ∧
        pyLower s = "nan")) ∧
    rowOpener oracleNanGpt cfgGpt rowNoWebsite =
      fallback_opener (rowVals rowNoWebsite).company
        (rowBlurbFetch oracleNanGpt rowNoWebsite).1 cfgGpt.role :=
  ⟨Or.inr ⟨"NaN", by decide, by decide⟩,
    (C3_opener_never_nan oracleNanGpt cfgGpt [] rowNoWebsite).2.2
      (Or.inr ⟨"NaN", by decide, by decide⟩)⟩

/-- Sanitisation as claim C4 words it (for comparison with the code's
`sanitizeCompany`): every non-alphanumeric character individually
replaced by an underscore. -/
def claimSanitize (s : String) : String :=
  String.mk (s.data.map (fun c => if c.isAlphanum then c else '_'))

/-- C4 (counterexample): for the company `"a.b c"` the preview file is
named from `"a.b_c"` -- the dot is kept and the space becomes an
underscore -- which differs from replacing every non-alphanumeric
character by an underscore (`"a_b_c"`). -/
theorem C4_counterexample :
    (processRow oracle0 cfgDry initState rowDotCompany).previews.map Prod.fst =
      ["outbox_preview/a.b_c__d@e.fr.txt"] ∧
    cfgDry.outbox ++ "/" ++ String.mk ((claimSanitize "a.b c").data.take 60) ++ "__" ++
        "d@e.fr" ++ ".txt" = "outbox_preview/a_b_c__d@e.fr.txt" ∧
    ("outbox_preview/a.b_c__d@e.fr.txt" : String) ≠ "outbox_preview/a_b_c__d@e.fr.txt" := by
  exact ⟨by decide, by decide, by decide⟩

theorem processRow_sends_dry (O : Oracles) (cfg : Config) (st : RunState) (row : Row)
    (hdry : cfg.dryRun = true) : (processRow O cfg st row).sends = st.sends := by
  unfold processRow
  dsimp only
  split
  · rfl
  · split
    · rfl
    · rfl

theorem runRows_sends_dry (O : Oracles) (cfg : Config) (hdry : cfg.dryRun = true) :
    ∀ (rows : List Row) (st : RunState), (runRows O cfg st rows).sends = st.sends
  | [], _ => rfl
  | row :: rest, st => by
    unfold runRows
    split
    · rfl
    · rw [runRows_sends_dry O cfg hdry rest _, processRow_sends_dry O cfg st row hdry]

/-- C4 (amended): in dry-run mode no SMTP send is ever attempted, and a
processed row produces exactly one preview file, whose name is the
outbox folder, the company with every maximal run of characters outside
`[A-Za-z0-9_.-]` replaced by one underscore and truncated to 60
characters, then `__`, the recipient email verbatim, and `.txt`; its
content is the recipient, the subject and the body. -/
theorem C4_preview_only (O : Oracles) (cfg : Config) (st : RunState) (row : Row)
    (rows : List Row) (hdry : cfg.dryRun = true)
    (hc : (rowVals row).company ≠ "") (he : (rowVals row).email ≠ "")
    (hs : pyLower (rowVals row).status ∉ (["sent", "done", "bounced"] : List String)) :
    (runRows O cfg initState rows).sends = [] ∧
    (processRow O cfg st row).sends = st.sends ∧
    (processRow O cfg st row).previews = st.previews ++
      [(previewFilename cfg (rowVals row).company (rowVals row).email,
        previewContent (rowVals row).email (rowSubject O cfg row) (rowBody O cfg row))] ∧
    previewFilename cfg (rowVals row).company (rowVals row).email =
      cfg.outbox ++ "/" ++
        String.mk ((sanitizeCompany (rowVals row).company).data.take 60) ++ "__" ++
        (rowVals row).email ++ ".txt" := by
  refine ⟨runRows_sends_dry O cfg hdry rows initState, ?_⟩
  unfold processRow
  dsimp only
  rw [if_neg (by simp [hc, he]), if_neg hs, if_pos hdry]
  exact ⟨rfl, rfl, rfl⟩

/-- C4 (witness): the dry-run preview theorem applied to a concrete
valid row. -/
theorem C4_preview_only_witness :
    (cfgDry.dryRun = true ∧ (rowVals rowSheetOpener).company ≠ "" ∧
      (rowVals rowSheetOpener).email ≠ "" ∧
      pyLower (rowVals rowSheetOpener).status ∉ (["sent", "done", "bounced"] : List String)) ∧
    (processRow oracle0 cfgDry initState rowSheetOpener).sends = initState.sends :=
  ⟨⟨rfl, by decide, by decide, by decide⟩,
    (C4_preview_only oracle0 cfgDry initState rowSheetOpener [] rfl (by decide) (by decide)
      (by decide)).2.1⟩

/-- C5 (counterexample): the override `"nAn"` (which none of pandas'
default NA spellings capture) takes the sheet-opener path, but the
nan-guard then discards it, so the opener that reaches the email is the
heuristic fallback, not the override text. -/
theorem C5_counterexample :
    (rowVals rowNAnOverride).openerFromSheet = "nAn" ∧
    rowOpener oracle0 cfgDry rowNAnOverride = fallback_opener "Acme" "" cfgDry.role ∧
    rowOpener oracle0 cfgDry rowNAnOverride ≠ "nAn" := by
  exact ⟨by decide, by decide, by decide⟩

/-- C5 (amended): for a processed row with a non-empty First Line
override, no candidate URL is built and the website is not fetched, the
personalisation function is never invoked, the helper phrase is
extracted from the override text, and the override text is used as the
opener unless it lower-cases to `"nan"`, in which case the nan-guard
substitutes the heuristic fallback. -/
theorem C5_sheet_opener_path (O : Oracles) (cfg : Config) (st : RunState) (row : Row)
    (h : (rowVals row).openerFromSheet ≠ "") :
    rowBlurbFetch O row = ("", []) ∧
    (processRow O cfg st row).fetchAttempts = st.fetchAttempts ∧
    (processRow O cfg st row).gptCalls = st.gptCalls ∧
    (rowPersonalization O cfg row).opener = some (rowVals row).openerFromSheet ∧
    rowHelper O cfg row = extract_helper_phrase (rowVals row).openerFromSheet ∧
    rowOpener O cfg row =
      (if pyLower (rowVals row).openerFromSheet = "nan" then
        fallback_opener (rowVals row).company "" cfg.role
      else (rowVals row).openerFromSheet) := by
  have hbf : rowBlurbFetch O row = ("", []) := by
    unfold rowBlurbFetch
    rw [if_pos h]
  have hpers : rowPersonalization O cfg row =
      { opener := some (rowVals row).openerFromSheet,
        helper := extract_helper_phrase (rowVals row).openerFromSheet } := by
    unfold rowPersonalization
    rw [if_pos h]
  refine ⟨hbf, ?_, ?_, ?_, ?_, ?_⟩
  · unfold processRow
    dsimp only
    rw [hbf, if_neg h]
    split
    · rfl
    · split
      · rfl
      · split <;> simp
  · unfold processRow
    dsimp only
    rw [hbf, if_neg h]
    split
    · rfl
    · split
      · rfl
      · split <;> simp
  · rw [hpers]
  · unfold rowHelper
    rw [hpers]
  · unfold rowOpener
    rw [hpers, hbf]

/-- C5 (witness): the sheet-opener theorem applied to a concrete row
with override `"Great work!"`. -/
theorem C5_sheet_opener_path_witness :
    (rowVals rowSheetOpener).openerFromSheet ≠ "" ∧
    rowHelper oracle0 cfgDry rowSheetOpener =
      extract_helper_phrase (rowVals rowSheetOpener).openerFromSheet :=
  ⟨by decide,
    (C5_sheet_opener_path oracle0 cfgDry initState rowSheetOpener (by decide)).2.2.2.2.1⟩

/-- C6: the Phrase Extractor returns the fixed default
`"analytics support"` on empty (falsy) input, and likewise when no
candidate survives the cleaning filter (the sorted candidate list is
empty). -/
theorem C6_default_phrase :
    extract_helper_phrase "" = "analytics support" ∧ pickBest [] = "analytics support" :=
  ⟨rfl, rfl⟩

/-- C7 (counterexample): on `"Aaa\tBbb"` the extractor returns
`"aaa bbb"`, the whitespace-collapsed form of the capitalised chunk,
which is not an element of the assembled candidate set (even restricted
to lengths 3-40): the raw candidate is `"aaa\tbbb"`. -/
theorem C7_counterexample :
    extract_helper_phrase "Aaa\tBbb" = "aaa bbb" ∧
    "aaa bbb" ∉ (candidatesOf "Aaa\tBbb").filter (fun c => 3 ≤ c.length && c.length ≤ 40) := by
  exact ⟨by decide, by decide⟩

/-- C7 (amended): for non-empty text the returned phrase is an element
of the cleaned candidate list (each assembled candidate stripped and
whitespace-collapsed, restricted to length 3-40) that minimises first
the distance of its word count from 3 and then its character length. -/
theorem C7_best_candidate (text : String) (h : text ≠ "") :
    extract_helper_phrase text ∈ cleanedCandidates text ∧
    ∀ c ∈ cleanedCandidates text,
      candKey1 (extract_helper_phrase text) < candKey1 c ∨
        (candKey1 (extract_helper_phrase text) = candKey1 c ∧
          (extract_helper_phrase text).length ≤ c.length) := by
  have hext : extract_helper_phrase text = pickBest (cleanedCandidates text) := by
    unfold extract_helper_phrase
    rw [if_neg h]
  rw [hext]
  exact ⟨pickBest_mem (cleaned_ne_nil text),
    fun c hc => pickBest_min (cleaned_ne_nil text) c hc⟩

/-- C7 (witness): the minimality theorem applied to the text `"ai"` and
the candidate `"deal sourcing"`. -/
theorem C7_best_candidate_witness :
    ("ai" : String) ≠ "" ∧ "deal sourcing" ∈ cleanedCandidates "ai" ∧
    (candKey1 (extract_helper_phrase "ai") < candKey1 "deal sourcing" ∨
      (candKey1 (extract_helper_phrase "ai") = candKey1 "deal sourcing" ∧
        (extract_helper_phrase "ai").length ≤ ("deal sourcing" : String).length)) :=
  ⟨by decide, by decide, (C7_best_candidate "ai" (by decide)).2 "deal sourcing" (by decide)⟩

/-- C8: the send log is flushed once with the fixed column set; opened
on existing content it appends the records leaving the old rows
unchanged and adds no header; on a fresh file it writes the header
first; hence two consecutive runs produce exactly one header followed by
both runs' records. -/
theorem C8_append_log :
    logFieldnames = ["timestamp", "company", "email", "website", "greeting", "first_line",
      "subject", "result"] ∧
    (∀ (old : List (List String)) (recs : List SendRecord),
      appendLog (some old) recs = old ++ recs.map recordToRow) ∧
    (∀ recs : List SendRecord, appendLog none recs = logFieldnames :: recs.map recordToRow) ∧
    (∀ recs1 recs2 : List SendRecord,
      appendLog (some (appendLog none recs1)) recs2 =
        logFieldnames :: (recs1.map recordToRow ++ recs2.map recordToRow)) := by
  refine ⟨rfl, fun old recs => rfl, fun recs => rfl, fun r1 r2 => ?_⟩
  simp [appendLog]

/-- C9: the extractor always returns a phrase of 3 to 40 characters (in
particular non-empty): the empty-input default qualifies, and otherwise
the fixed keywords are always appended, so the cleaned candidate list is
never empty and the post-sort fallback return is unreachable. -/
theorem C9_phrase_bounds (text : String) :
    3 ≤ (extract_helper_phrase text).length ∧ (extract_helper_phrase text).length ≤ 40 ∧
    extract_helper_phrase text ≠ "" ∧ (text ≠ "" → cleanedCandidates text ≠ []) := by
  by_cases h : text = ""
  · subst h
    exact ⟨by decide, by decide, by decide, fun hne => absurd rfl hne⟩
  · have hext : extract_helper_phrase text = pickBest (cleanedCandidates text) := by
      unfold extract_helper_phrase
      rw [if_neg h]
    have hmem := pickBest_mem (cleaned_ne_nil text)
    have hpred : (3 ≤ (pickBest (cleanedCandidates text)).length &&
        (pickBest (cleanedCandidates text)).length ≤ 40) = true := by
      have h2 := hmem
      unfold cleanedCandidates at h2
      exact (List.mem_filter.1 h2).2
    simp only [Bool.and_eq_true, decide_eq_true_eq] at hpred
    refine ⟨hext ▸ hpred.1, hext ▸ hpred.2, fun heq => ?_, fun _ => cleaned_ne_nil text⟩
    have h3 : 3 ≤ (extract_helper_phrase text).length := hext ▸ hpred.1
    rw [heq] at h3
    exact absurd h3 (by decide)

/-- C9 (witness): the bounds theorem applied to the text `"ai"`,
discharging the non-emptiness hypothesis. -/
theorem C9_phrase_bounds_witness :
    ("ai" : String) ≠ "" ∧ cleanedCandidates "ai" ≠ [] :=
  ⟨by decide, (C9_phrase_bounds "ai").2.2.2 (by decide)⟩

/-- C10: the NaN-to-empty guard covers only the First Line column: a
missing Website cell stringifies to `"nan"`, so the blurb fetch builds
candidate URLs from `"nan"` (instead of the attempt-free empty-URL
path), and the composed body ends with `Website noted: nan` rather than
the dash placeholder. -/
theorem C10_nan_website (O : Oracles) (cfg : Config) (row : Row) (hw : row.website = none) :
    (rowVals row).website = "nan" ∧
    ((rowVals row).openerFromSheet = "" →
      (rowBlurbFetch O row).2 =
        ["http://nan", "http://nan/about", "http://nan/about-us", "http://nan/company"]) ∧
    fetchCandidateUrls "" = [] ∧
    ∃ p, rowBody O cfg row = p ++ "Website noted: nan\n" := by
  have h1 : (rowVals row).website = "nan" := by
    have h0 : (rowVals row).website = pyStrip (cellStr row.website) := rfl
    rw [h0, hw]
    decide
  refine ⟨h1, ?_, rfl, ?_⟩
  · intro hs
    unfold rowBlurbFetch
    dsimp only
    rw [if_neg (by simp [hs]), h1]
    rfl
  · unfold rowBody
    rw [h1]
    exact body_tail_nan _ _ _

/-- C10 (witness): the missing-website theorem applied to a concrete
row with a NaN Website cell. -/
theorem C10_nan_website_witness :
    rowNoWebsite.website = none ∧ (rowVals rowNoWebsite).openerFromSheet = "" ∧
    (rowBlurbFetch oracle0 rowNoWebsite).2 =
      ["http://nan", "http://nan/about", "http://nan/about-us", "http://nan/company"] :=
  ⟨rfl, by decide, (C10_nan_website oracle0 cfgDry rowNoWebsite rfl).2.1 (by decide)⟩
